import Mathlib

/-!
Verification development for `connexion/apis/flask_api.py`: the translation layer
between Flask requests/responses and Connexion's canonical request/response model.

The Python module is shallowly embedded below.  Pure functions become Lean
functions; the one stateful interaction that matters (Werkzeug's `get_data`,
which buffers a streamed response iterable) is modelled by explicit state
passing.  Python `None` becomes `Option.none` (or the `PyVal.vnone` dynamic
value), exceptions become `Except`, and Python's dynamic values are modelled by
the closed `PyVal` type covering the shapes this module inspects.
-/

/-- Embeds `flask.Response` (Werkzeug response), the framework response type.
`chunks` is the response iterable (a list of byte chunks); `body_is_sequence`
records whether that iterable is a concrete sequence (Python list/tuple, which
supports `len`) as opposed to a streamed generator; `direct_passthrough` is
Werkzeug's flag telling the server to send the iterable untouched. -/
structure FlaskResponse where
  status_code : Int
  mimetype : Option String
  content_type : Option String
  headers : List (String × String)
  chunks : List (List Nat)
  body_is_sequence : Bool
  direct_passthrough : Bool

/-- Dynamic Python values as far as this module inspects them: `None`, ints,
text, bytes, dict, list, tuple, and framework response objects. -/
inductive PyVal where
  | vnone : PyVal
  | vint (n : Int) : PyVal
  | vstr (s : String) : PyVal
  | vbytes (b : List Nat) : PyVal
  | vmap (entries : List (String × PyVal)) : PyVal
  | vlist (items : List PyVal) : PyVal
  | vtuple (items : List PyVal) : PyVal
  | vresp (r : FlaskResponse) : PyVal

/-- Header collections as passed around by the module (dict-like mappings). -/
abbrev Headers := List (String × PyVal)

/-- True exactly on tuples; used to state which handler return values are
"bare bodies" as opposed to tuple shapes. -/
def PyVal.isTuple : PyVal → Bool
  | .vtuple _ => true
  | _ => false

/-- Python truthiness-based `x or y` on optional strings: `None` and the empty
string are falsy, so they yield the right operand. -/
def pyOrStr (a b : Option String) : Option String :=
  match a with
  | some s => if s = "" then b else some s
  | none => b

/-- Python `v is not None` as an `Option`: `None` becomes `none`, any other
value is kept. -/
def optOfPy : PyVal → Option PyVal
  | .vnone => none
  | v => some v

/-- Modelled from Werkzeug: `Response.is_streamed` is true when the response
iterable does not support `len` (a generator), false for concrete sequences. -/
def FlaskResponse.is_streamed (r : FlaskResponse) : Bool :=
  !r.body_is_sequence

/-- Modelled from Werkzeug: `Response.get_data()` first calls
`_ensure_sequence()` — `flask.Response` keeps Werkzeug's default
`implicit_sequence_conversion = True`, so a streamed iterable is converted in
place into a buffered one-element sequence — and then returns the joined
bytes.  The returned pair is (joined bytes, response state after the call). -/
def FlaskResponse.get_data (r : FlaskResponse) : List Nat × FlaskResponse :=
  let d := r.chunks.flatten
  (d, { r with chunks := [d], body_is_sequence := true })

/-- Embeds `connexion.lifecycle.ConnexionResponse`, the canonical response
struct of the spec's data model: body, status code, mimetype, content type,
headers and the streamed flag. -/
structure ConnexionResponse where
  status_code : Option Int
  mimetype : Option String
  content_type : Option String
  headers : Option Headers
  body : PyVal
  is_streamed : Bool

/-- Embeds the part of `connexion.lifecycle.ConnexionRequest` that
`FlaskApi.get_body` reads: declared content type, bare mimetype, raw body
bytes, the outcome of handing the raw body to the external JSON decoder
(`none` when the raw body is not valid JSON), and the form-field mapping the
framework parsed from a form-encoded body. -/
structure ConnexionRequest where
  content_type : Option String
  mimetype : String
  rawBody : List Nat
  jsonParse : Option PyVal
  form : List (String × PyVal)

/-- Modelled from the spec: `ConnexionRequest.get_json` (connexion/lifecycle.py,
not under src/) attempts to parse the raw body as JSON; on parse failure it
returns null when `silent` is set and raises otherwise. -/
def ConnexionRequest.get_json (r : ConnexionRequest) (silent : Bool) : Except Unit PyVal :=
  match r.jsonParse with
  | some v => .ok v
  | none => if silent then .ok .vnone else .error ()

/-- Python `request.get_data()`: the raw body bytes of the request. -/
def ConnexionRequest.get_data (r : ConnexionRequest) : List Nat :=
  r.rawBody

/-- Suffix test on strings written over the underlying character lists. -/
def strEndsWith (s t : String) : Bool :=
  let ls := s.toList
  let lt := t.toList
  decide (lt.length ≤ ls.length) && ls.drop (ls.length - lt.length) == lt

/-- Modelled from the spec: `is_json_mimetype` (connexion/utils.py, not under
src/) — whether the content type indicates JSON: media type
`application/json` or a `+json` suffixed subtype, ignoring parameters after
`;`. -/
def is_json_mimetype : Option String → Bool
  | none => false
  | some ct =>
    let mt := String.mk (ct.toList.takeWhile fun c => !(c == ';'))
    mt == "application/json" || strEndsWith mt "+json"

/-- Modelled from the spec: `FORM_CONTENT_TYPES` (connexion/http_facts.py, not
under src/) — the recognized form-encoded content types. -/
def FORM_CONTENT_TYPES : List String :=
  ["application/x-www-form-urlencoded", "multipart/form-data"]

/-- JSON string literal rendering used by the modelled encoder. -/
def jsonEncodeString (s : String) : String :=
  "\"" ++ s ++ "\""

mutual

/-- Modelled from the spec: the external JSON codec applied to a structured
value — mappings, sequences and other JSON-serializable values encode to JSON
text; bytes and framework response objects are not JSON-serializable, so the
encoder yields `none` (the Python encoder raises there). -/
def jsonEncode : PyVal → Option String
  | .vnone => some "null"
  | .vint n => some (toString n)
  | .vstr s => some (jsonEncodeString s)
  | .vbytes _ => none
  | .vresp _ => none
  | .vlist items =>
    (jsonEncodeItems items).map fun parts => "[" ++ String.intercalate "," parts ++ "]"
  | .vtuple items =>
    (jsonEncodeItems items).map fun parts => "[" ++ String.intercalate "," parts ++ "]"
  | .vmap entries =>
    (jsonEncodeEntries entries).map fun parts =>
      "\x7b" ++ String.intercalate "," parts ++ "\x7d"

/-- Encodes the elements of a JSON array, failing if any element fails. -/
def jsonEncodeItems : List PyVal → Option (List String)
  | [] => some []
  | v :: vs =>
    match jsonEncode v, jsonEncodeItems vs with
    | some s, some ss => some (s :: ss)
    | _, _ => none

/-- Encodes the members of a JSON object, failing if any value fails. -/
def jsonEncodeEntries : List (String × PyVal) → Option (List String)
  | [] => some []
  | (k, v) :: vs =>
    match jsonEncode v, jsonEncodeEntries vs with
    | some s, some ss => some ((jsonEncodeString k ++ ":" ++ s) :: ss)
    | _, _ => none

end

/-- Modelled from the spec: `flask_utils.is_flask_response`
(connexion/apis/flask_utils.py, not under src/) — the per-framework predicate
recognizing an already-built framework response object. -/
def is_flask_response : PyVal → Bool
  | .vresp _ => true
  | _ => false

/-- A keyword-argument value as passed to the framework response constructor. -/
inductive KwVal where
  | str (s : String) : KwVal
  | hdrs (h : Headers) : KwVal
  | pyv (v : PyVal) : KwVal
  | int (n : Int) : KwVal

/-- Embeds the dict comprehension of `_build_response` (flask_api.py line 130):
keyword arguments whose value is `None` are dropped before the constructor
call. -/
def filterNoneKwargs (l : List (String × Option KwVal)) : List (String × KwVal) :=
  l.filterMap fun kv => kv.2.map fun v => (kv.1, v)

/-- Lookup of a keyword argument by name in the filtered kwargs list. -/
def kwLookup (k : String) : List (String × KwVal) → Option KwVal
  | [] => none
  | kv :: rest => if kv.1 = k then some kv.2 else kwLookup k rest

/-- Whether a keyword argument of the given name was passed. -/
def kwHas (k : String) (kws : List (String × KwVal)) : Bool :=
  (kwLookup k kws).isSome

/-- The concrete framework response produced by `_build_response`: either the
pass-through path through `flask.current_app.make_response((data, status,
headers))` or a `flask.current_app.response_class(**kwargs)` construction with
the `None`-filtered keyword arguments. -/
inductive BuiltResponse where
  | make_response (data : PyVal) (status : Option Int) (headers : Option Headers) : BuiltResponse
  | response_class (kwargs : List (String × KwVal)) : BuiltResponse

namespace FlaskApi

/-- Embeds `FlaskApi._is_framework_response` (flask_api.py lines 75-78). -/
def _is_framework_response (response : PyVal) : Bool :=
  is_flask_response response

/-- Embeds `FlaskApi._framework_to_connexion_response` (flask_api.py lines
80-90).  Python evaluates the keyword arguments left to right, so the
`body=` argument (which calls `get_data()` unless `direct_passthrough` is
set) is evaluated before `is_streamed=` reads `response.is_streamed`; the
model threads the response state through that order. -/
def _framework_to_connexion_response (response : FlaskResponse) (mimetype : Option String) :
    ConnexionResponse :=
  let bodyState : PyVal × FlaskResponse :=
    if !response.direct_passthrough then
      let p := response.get_data
      (PyVal.vbytes p.1, p.2)
    else
      (PyVal.vnone, response)
  { status_code := some response.status_code
    mimetype := response.mimetype
    content_type := response.content_type
    headers := some (response.headers.map fun kv => (kv.1, PyVal.vstr kv.2))
    body := bodyState.1
    is_streamed := bodyState.2.is_streamed }

/-- Modelled from the spec: the serialization step of the body-preparation
logic (`AbstractAPI`, connexion/apis/abstract.py, not under src/) — text and
bytes pass through with the caller's mimetype; `None` stays absent; any other
(structured) value is JSON-encoded and the derived mimetype is
`application/json`; a non-serializable value raises. -/
def _serialize_data : PyVal → Option String → Except Unit (PyVal × Option String)
  | .vnone, m => .ok (.vnone, m)
  | .vstr s, m => .ok (.vstr s, m)
  | .vbytes b, m => .ok (.vbytes b, m)
  | d, _ =>
    match jsonEncode d with
    | some s => .ok (.vstr s, some "application/json")
    | none => .error ()

/-- Modelled from the spec: `AbstractAPI._prepare_body_and_status_code`
(connexion/apis/abstract.py, not under src/) — serialize the body and default
the status code to 200 when unset, returning (body, status, serialization
derived mimetype). -/
def _prepare_body_and_status_code (data : PyVal) (mimetype : Option String)
    (status_code : Option Int) : Except Unit (PyVal × Int × Option String) :=
  match _serialize_data data mimetype with
  | .error e => .error e
  | .ok (body, ser) => .ok (body, status_code.getD 200, ser)

/-- Embeds `FlaskApi._build_response` (flask_api.py lines 105-131): the
pass-through branch hands a framework-native body to `make_response` with the
status/headers overrides; otherwise the body is prepared and the framework
response class is called with the `None`-filtered keyword arguments, the
mimetype being `mimetype or serialized_mimetype` (line 124). -/
def _build_response (mimetype content_type : Option String) (headers : Option Headers)
    (status_code : Option Int) (data : PyVal) : Except Unit BuiltResponse :=
  if _is_framework_response data then
    .ok (.make_response data status_code headers)
  else
    match _prepare_body_and_status_code data mimetype status_code with
    | .error e => .error e
    | .ok (d, status, serialized_mimetype) =>
      .ok (.response_class (filterNoneKwargs
        [("mimetype", (pyOrStr mimetype serialized_mimetype).map KwVal.str),
         ("content_type", content_type.map KwVal.str),
         ("headers", headers.map KwVal.hdrs),
         ("response", (optOfPy d).map KwVal.pyv),
         ("status", some (KwVal.int status))]))

/-- Embeds `FlaskApi._connexion_to_framework_response` (flask_api.py lines
92-103): builds the framework response from the canonical one, with
`mimetype=response.mimetype or mimetype` (line 96). -/
def _connexion_to_framework_response (response : ConnexionResponse) (mimetype : Option String) :
    Except Unit BuiltResponse :=
  _build_response (pyOrStr response.mimetype mimetype) response.content_type
    response.headers response.status_code response.body

/-- Modelled from the spec: the single disambiguation routine for handler
return shapes — a 1-tuple is a bare body; a 2-tuple's second element selects
status (integer) or headers (mapping) and anything else is a fatal
programming error; a 3-tuple is read positionally as (body, status, headers);
tuples of other arities are fatal; a non-tuple is a bare body. -/
def decodeReturnShape : PyVal → Except Unit (PyVal × Option Int × Option Headers)
  | .vtuple [b] => .ok (b, none, none)
  | .vtuple [b, .vint s] => .ok (b, some s, none)
  | .vtuple [b, .vmap hs] => .ok (b, none, some hs)
  | .vtuple [b, .vint s, .vmap hs] => .ok (b, some s, some hs)
  | .vtuple _ => .error ()
  | v => .ok (v, none, none)

/-- Modelled from the spec: normalization of a decoded non-framework body —
it goes through the body-preparation logic and yields a canonical response
with the prepared body, the tuple status (default 200), the tuple headers
(default empty), the caller's mimetype (falling back to the serialization
derived one) and `is_streamed` false. -/
def plainResponseOfShape (b : PyVal) (tupStatus : Option Int)
    (tupHeaders : Option Headers) (mimetype : Option String) :
    Except Unit ConnexionResponse :=
  match _prepare_body_and_status_code b mimetype tupStatus with
  | .error e => .error e
  | .ok (d, status, ser) =>
    .ok { status_code := some status
          mimetype := pyOrStr mimetype ser
          content_type := none
          headers := some (tupHeaders.getD [])
          body := d
          is_streamed := false }

/-- Modelled from the spec: the second half of handler-result normalization —
a framework-response body has its fields copied out directly (an explicit
tuple status overriding the embedded one, likewise explicit tuple headers);
any other body is normalized by `plainResponseOfShape`. -/
def connexionResponseOfShape (body0 : PyVal) (tupStatus : Option Int)
    (tupHeaders : Option Headers) (mimetype : Option String) :
    Except Unit ConnexionResponse :=
  match body0 with
  | .vresp fr =>
    let c := _framework_to_connexion_response fr mimetype
    .ok { c with
          status_code := match tupStatus with | some s => some s | none => c.status_code
          headers := match tupHeaders with | some hs => some hs | none => c.headers }
  | b => plainResponseOfShape b tupStatus tupHeaders mimetype

/-- Modelled from the spec: `AbstractAPI._get_response` (connexion/apis/
abstract.py, not under src/) — decode the handler return shape, then build
the canonical response from it. -/
def _get_response (response : PyVal) (mimetype : Option String) :
    Except Unit ConnexionResponse :=
  match decodeReturnShape response with
  | .error e => .error e
  | .ok (b, s, hs) => connexionResponseOfShape b s hs mimetype

/-- Embeds `FlaskApi.get_response` (flask_api.py lines 60-73): delegates to
`_get_response`. -/
def get_response (response : PyVal) (mimetype : Option String) :
    Except Unit ConnexionResponse :=
  _get_response response mimetype

/-- Embeds `FlaskApi.get_body` (flask_api.py lines 137-146): JSON content
types are decoded silently, recognized form content types return the parsed
form mapping, and otherwise the raw bytes are returned, with an explicit
`None` instead of an empty bytestring. -/
def get_body (request : ConnexionRequest) : Except Unit PyVal :=
  if is_json_mimetype request.content_type then
    request.get_json true
  else if FORM_CONTENT_TYPES.contains request.mimetype then
    .ok (.vmap request.form)
  else
    .ok (match request.get_data with
         | [] => .vnone
         | b => .vbytes b)

end FlaskApi

/-- Handler functions as the adapter sees them: a callable on dynamic values. -/
abbrev Handler := List PyVal → PyVal

/-- Embeds the fields of `connexion.operations.AbstractOperation` that
`FlaskOperation.from_operation` reads (the operation itself is outside this
module; references to its parser class and owning API are modelled as opaque
identifiers). -/
structure AbstractOperation where
  function : Handler
  uri_parser_class : String
  api : String
  mimetype : String
  operation_id : String

/-- Modelled from the spec: `AbstractOperation.get_mimetype` returns the
operation's configured mimetype. -/
def AbstractOperation.get_mimetype (op : AbstractOperation) : String :=
  op.mimetype

/-- Embeds the construction arguments of `connexion.decorators.SyncDecorator`
as `FlaskOperation.fn` supplies them (flask_api.py lines 189-199); the
decorator's internals are an external collaborator, so its behaviour is a
parameter where used. -/
structure SyncDecorator where
  operation : AbstractOperation
  uri_parser_cls : String
  framework : String
  parameter : Bool
  response : Bool
  pythonic_params : Bool

/-- Embeds `FlaskOperation` (flask_api.py lines 156-173): the per-route
adapter and its fields as set by `__init__`. -/
structure FlaskOperation where
  _operation : AbstractOperation
  _fn : Handler
  uri_parser_class : String
  api : String
  mimetype : String
  operation_id : String
  pythonic_params : Bool

/-- Embeds `FlaskOperation.from_operation` (flask_api.py lines 175-187). -/
def FlaskOperation.from_operation (operation : AbstractOperation) (pythonic_params : Bool) :
    FlaskOperation :=
  { _operation := operation
    _fn := operation.function
    uri_parser_class := operation.uri_parser_class
    api := operation.api
    mimetype := operation.get_mimetype
    operation_id := operation.operation_id
    pythonic_params := pythonic_params }

/-- Embeds the `FlaskOperation.fn` property (flask_api.py lines 189-199):
builds a `SyncDecorator` over the adapter's fields and applies it to the raw
handler.  `applySem` is the external decorator semantics. -/
def FlaskOperation.fn (applySem : SyncDecorator → Handler → Handler)
    (self : FlaskOperation) : Handler :=
  applySem
    { operation := self._operation
      uri_parser_cls := self.uri_parser_class
      framework := self.api
      parameter := true
      response := true
      pythonic_params := self.pythonic_params }
    self._fn

/-- Embeds `FlaskOperation.__call__` (flask_api.py lines 201-202) with
explicit state passing: the call returns the adapter state after the
invocation together with the produced response; the method body contains no
assignment to the adapter's fields, so the state passes through unchanged. -/
def FlaskOperation.call (applySem : SyncDecorator → Handler → Handler)
    (self : FlaskOperation) (args : List PyVal) : FlaskOperation × PyVal :=
  (self, FlaskOperation.fn applySem self args)

/-! ## Shared helper lemmas -/

/-- The prepared status code is the supplied one, defaulting to 200. -/
theorem prepare_ok_status (d : PyVal) (m : Option String) (sc : Option Int)
    (b : PyVal) (st : Int) (ser : Option String)
    (hp : FlaskApi._prepare_body_and_status_code d m sc = .ok (b, st, ser)) :
    st = sc.getD 200 := by
  unfold FlaskApi._prepare_body_and_status_code at hp
  cases hs : FlaskApi._serialize_data d m with
  | error e => rw [hs] at hp; simp at hp
  | ok p =>
    obtain ⟨body, ser'⟩ := p
    rw [hs] at hp
    simp only [Except.ok.injEq, Prod.mk.injEq] at hp
    exact hp.2.1.symm

/-! ## Claim theorems -/

/-- Claim C1: for every framework response converted by
`_framework_to_connexion_response`, if the resulting canonical response has
`is_streamed` true then its body is null — the streamed body is never
buffered into the canonical response. -/
theorem framework_to_connexion_streamed_has_null_body (r : FlaskResponse) (m : Option String)
    (h : (FlaskApi._framework_to_connexion_response r m).is_streamed = true) :
    (FlaskApi._framework_to_connexion_response r m).body = PyVal.vnone := by
  unfold FlaskApi._framework_to_connexion_response at h ⊢
  cases hdp : r.direct_passthrough with
  | false => simp [hdp, FlaskResponse.get_data, FlaskResponse.is_streamed] at h
  | true => simp [hdp]

/-- Witness for C1: a direct-passthrough streamed framework response converts
to a canonical response with `is_streamed` true and a null body. -/
theorem framework_to_connexion_streamed_has_null_body_w :
    ((FlaskApi._framework_to_connexion_response
        { status_code := 200, mimetype := none, content_type := none, headers := [],
          chunks := [[104]], body_is_sequence := false, direct_passthrough := true }
        none).is_streamed = true) ∧
    ((FlaskApi._framework_to_connexion_response
        { status_code := 200, mimetype := none, content_type := none, headers := [],
          chunks := [[104]], body_is_sequence := false, direct_passthrough := true }
        none).body = PyVal.vnone) :=
  ⟨rfl, framework_to_connexion_streamed_has_null_body _ none rfl⟩

/-- Claim C10: the supplied default mimetype has no influence on
`_framework_to_connexion_response` — all fields of the converted canonical
response are taken solely from the framework response. -/
theorem framework_to_connexion_ignores_default_mimetype (r : FlaskResponse)
    (m1 m2 : Option String) :
    FlaskApi._framework_to_connexion_response r m1 =
      FlaskApi._framework_to_connexion_response r m2 := rfl

/-- Claim C4: when the body handed to `_build_response` is already a
framework-native response object, it is handed directly to the framework's
response constructor together with the status and headers overrides, with no
re-serialization of the body. -/
theorem build_response_native_passthrough (m ct : Option String) (h : Option Headers)
    (sc : Option Int) (r : FlaskResponse) :
    FlaskApi._build_response m ct h sc (.vresp r) =
      .ok (.make_response (.vresp r) sc h) := rfl

/-- Claim C9: invoking a `FlaskOperation` adapter leaves all adapter fields —
the underlying operation, the handler function, the URI parser class, the
owning API, the mimetype, the operation id and the pythonic-params flag —
unchanged, for any external decorator semantics. -/
theorem flask_operation_call_preserves_adapter_fields
    (applySem : SyncDecorator → Handler → Handler) (op : FlaskOperation)
    (args : List PyVal) :
    ((FlaskOperation.call applySem op args).1._operation = op._operation) ∧
    ((FlaskOperation.call applySem op args).1._fn = op._fn) ∧
    ((FlaskOperation.call applySem op args).1.uri_parser_class = op.uri_parser_class) ∧
    ((FlaskOperation.call applySem op args).1.api = op.api) ∧
    ((FlaskOperation.call applySem op args).1.mimetype = op.mimetype) ∧
    ((FlaskOperation.call applySem op args).1.operation_id = op.operation_id) ∧
    ((FlaskOperation.call applySem op args).1.pythonic_params = op.pythonic_params) ∧
    ((FlaskOperation.call applySem op args).1 = op) :=
  ⟨rfl, rfl, rfl, rfl, rfl, rfl, rfl, rfl⟩

/-- Claim C2: for every request whose content type indicates JSON, `get_body`
parses the body silently — it never raises, and on any parse failure it
returns null. -/
theorem get_body_json_is_silent (r : ConnexionRequest)
    (h : is_json_mimetype r.content_type = true) :
    (∃ v, FlaskApi.get_body r = .ok v) ∧
    (r.jsonParse = none → FlaskApi.get_body r = .ok PyVal.vnone) := by
  constructor
  · cases hj : r.jsonParse with
    | some v => exact ⟨v, by simp [FlaskApi.get_body, h, ConnexionRequest.get_json, hj]⟩
    | none => exact ⟨.vnone, by simp [FlaskApi.get_body, h, ConnexionRequest.get_json, hj]⟩
  · intro hj
    simp [FlaskApi.get_body, h, ConnexionRequest.get_json, hj]

/-- Witness for C2: a request with content type `application/json` and a raw
body that is not valid JSON yields a null body, not an exception. -/
theorem get_body_json_is_silent_w :
    (is_json_mimetype (some "application/json") = true) ∧
    (FlaskApi.get_body
      { content_type := some "application/json", mimetype := "application/json",
        rawBody := [110, 111, 116], jsonParse := none, form := [] } =
      .ok PyVal.vnone) :=
  ⟨by decide,
   (get_body_json_is_silent
      { content_type := some "application/json", mimetype := "application/json",
        rawBody := [110, 111, 116], jsonParse := none, form := [] }
      (by decide)).2 rfl⟩

/-- Claim C7: for every request whose content type is neither JSON nor a
recognized form-encoded type, `get_body` returns the raw body bytes when they
are non-empty and explicit null when the body is empty. -/
theorem get_body_raw_bytes_or_none (r : ConnexionRequest)
    (hj : is_json_mimetype r.content_type = false)
    (hf : FORM_CONTENT_TYPES.contains r.mimetype = false) :
    (r.rawBody ≠ [] → FlaskApi.get_body r = .ok (PyVal.vbytes r.rawBody)) ∧
    (r.rawBody = [] → FlaskApi.get_body r = .ok PyVal.vnone) := by
  have hf' : r.mimetype ∉ FORM_CONTENT_TYPES := by simpa using hf
  constructor
  · intro hne
    cases hb : r.rawBody with
    | nil => exact absurd hb hne
    | cons a as => simp [FlaskApi.get_body, hj, hf', ConnexionRequest.get_data, hb]
  · intro hb
    simp [FlaskApi.get_body, hj, hf', ConnexionRequest.get_data, hb]

/-- Witness for C7: a request with content type `text/plain` and an empty body
yields explicit null, not an empty byte string. -/
theorem get_body_raw_bytes_or_none_w :
    (is_json_mimetype (some "text/plain") = false) ∧
    (FORM_CONTENT_TYPES.contains "text/plain" = false) ∧
    (FlaskApi.get_body
      { content_type := some "text/plain", mimetype := "text/plain",
        rawBody := [], jsonParse := none, form := [] } = .ok PyVal.vnone) :=
  ⟨by decide, by decide,
   (get_body_raw_bytes_or_none
      { content_type := some "text/plain", mimetype := "text/plain",
        rawBody := [], jsonParse := none, form := [] }
      (by decide) (by decide)).2 rfl⟩

/-- Claim C8: for every request whose content type does not indicate JSON and
whose mimetype is a recognized form-encoded content type, `get_body` returns
the parsed form-field mapping of the request. -/
theorem get_body_form_mapping (r : ConnexionRequest)
    (hj : is_json_mimetype r.content_type = false)
    (hf : FORM_CONTENT_TYPES.contains r.mimetype = true) :
    FlaskApi.get_body r = .ok (PyVal.vmap r.form) := by
  have hf' : r.mimetype ∈ FORM_CONTENT_TYPES := by simpa using hf
  simp [FlaskApi.get_body, hj, hf']

/-- Witness for C8: a form-urlencoded request with body `a=1&b=2` yields the
form mapping with entries a ↦ 1 and b ↦ 2. -/
theorem get_body_form_mapping_w :
    (is_json_mimetype (some "application/x-www-form-urlencoded") = false) ∧
    (FORM_CONTENT_TYPES.contains "application/x-www-form-urlencoded" = true) ∧
    (FlaskApi.get_body
      { content_type := some "application/x-www-form-urlencoded",
        mimetype := "application/x-www-form-urlencoded",
        rawBody := [97, 61, 49, 38, 98, 61, 50], jsonParse := none,
        form := [("a", PyVal.vstr "1"), ("b", PyVal.vstr "2")] } =
      .ok (PyVal.vmap [("a", PyVal.vstr "1"), ("b", PyVal.vstr "2")])) :=
  ⟨by decide, by decide,
   get_body_form_mapping
      { content_type := some "application/x-www-form-urlencoded",
        mimetype := "application/x-www-form-urlencoded",
        rawBody := [97, 61, 49, 38, 98, 61, 50], jsonParse := none,
        form := [("a", PyVal.vstr "1"), ("b", PyVal.vstr "2")] }
      (by decide) (by decide)⟩

/-- Inversion for `_build_response`'s non-pass-through result: a constructed
response comes from a successful body preparation, and its kwargs are the
`None`-filtered list. -/
theorem build_response_class_inv (m ct : Option String) (h : Option Headers)
    (sc : Option Int) (d : PyVal) (kws : List (String × KwVal))
    (hb : FlaskApi._build_response m ct h sc d = .ok (.response_class kws)) :
    ∃ b st ser, FlaskApi._prepare_body_and_status_code d m sc = .ok (b, st, ser) ∧
      kws = filterNoneKwargs
        [("mimetype", (pyOrStr m ser).map KwVal.str),
         ("content_type", ct.map KwVal.str),
         ("headers", h.map KwVal.hdrs),
         ("response", (optOfPy b).map KwVal.pyv),
         ("status", some (KwVal.int st))] := by
  unfold FlaskApi._build_response at hb
  cases hfw : FlaskApi._is_framework_response d with
  | true => rw [hfw] at hb; simp at hb
  | false =>
    rw [hfw] at hb
    cases hp : FlaskApi._prepare_body_and_status_code d m sc with
    | error e => rw [hp] at hb; simp at hb
    | ok trip =>
      obtain ⟨b, st, ser⟩ := trip
      rw [hp] at hb
      simp at hb
      exact ⟨b, st, ser, rfl, hb.symm⟩

/-- A successful `plainResponseOfShape` yields the tuple status (default 200)
and the tuple headers (default empty). -/
theorem plain_shape_fields (b : PyVal) (ts : Option Int) (th : Option Headers)
    (m : Option String) (r : ConnexionResponse)
    (heq : FlaskApi.plainResponseOfShape b ts th m = .ok r) :
    r.status_code = some (ts.getD 200) ∧ r.headers = some (th.getD []) := by
  unfold FlaskApi.plainResponseOfShape at heq
  cases hp : FlaskApi._prepare_body_and_status_code b m ts with
  | error e => rw [hp] at heq; simp at heq
  | ok trip =>
    obtain ⟨d, st, ser⟩ := trip
    rw [hp] at heq
    simp at heq
    have hst := prepare_ok_status _ _ _ _ _ _ hp
    cases heq
    exact ⟨by simp [hst], by simp⟩

/-- A successful shape normalization of a non-framework body yields the tuple
status (default 200) and the tuple headers (default empty). -/
theorem shape_ok_fields (b : PyVal) (ts : Option Int) (th : Option Headers)
    (m : Option String) (r : ConnexionResponse)
    (hfw : is_flask_response b = false)
    (heq : FlaskApi.connexionResponseOfShape b ts th m = .ok r) :
    r.status_code = some (ts.getD 200) ∧ r.headers = some (th.getD []) := by
  cases b with
  | vresp fr => simp [is_flask_response] at hfw
  | vnone =>
    exact plain_shape_fields _ _ _ _ _
      (show FlaskApi.plainResponseOfShape PyVal.vnone ts th m = .ok r from heq)
  | vint n =>
    exact plain_shape_fields _ _ _ _ _
      (show FlaskApi.plainResponseOfShape (PyVal.vint n) ts th m = .ok r from heq)
  | vstr s =>
    exact plain_shape_fields _ _ _ _ _
      (show FlaskApi.plainResponseOfShape (PyVal.vstr s) ts th m = .ok r from heq)
  | vbytes bs =>
    exact plain_shape_fields _ _ _ _ _
      (show FlaskApi.plainResponseOfShape (PyVal.vbytes bs) ts th m = .ok r from heq)
  | vmap es =>
    exact plain_shape_fields _ _ _ _ _
      (show FlaskApi.plainResponseOfShape (PyVal.vmap es) ts th m = .ok r from heq)
  | vlist xs =>
    exact plain_shape_fields _ _ _ _ _
      (show FlaskApi.plainResponseOfShape (PyVal.vlist xs) ts th m = .ok r from heq)
  | vtuple xs =>
    exact plain_shape_fields _ _ _ _ _
      (show FlaskApi.plainResponseOfShape (PyVal.vtuple xs) ts th m = .ok r from heq)

/-- Claim C3: a bare-body handler return (arity-1 shape) yields a canonical
response with status code 200 and empty headers; a 2-tuple is disambiguated
by the type of its second element (integer means status, mapping means
headers); a 3-tuple is read positionally as (body, status, headers). -/
theorem get_response_tuple_shapes :
    (∀ (v : PyVal) (m : Option String) (r : ConnexionResponse),
        is_flask_response v = false → v.isTuple = false →
        FlaskApi.get_response v m = .ok r →
        r.status_code = some 200 ∧ r.headers = some []) ∧
    (∀ (v : PyVal) (m : Option String) (r : ConnexionResponse),
        is_flask_response v = false →
        FlaskApi.get_response (.vtuple [v]) m = .ok r →
        r.status_code = some 200 ∧ r.headers = some []) ∧
    (∀ (v : PyVal) (s : Int) (m : Option String) (r : ConnexionResponse),
        is_flask_response v = false →
        FlaskApi.get_response (.vtuple [v, .vint s]) m = .ok r →
        r.status_code = some s ∧ r.headers = some []) ∧
    (∀ (v : PyVal) (hs : Headers) (m : Option String) (r : ConnexionResponse),
        is_flask_response v = false →
        FlaskApi.get_response (.vtuple [v, .vmap hs]) m = .ok r →
        r.status_code = some 200 ∧ r.headers = some hs) ∧
    (∀ (v : PyVal) (s : Int) (hs : Headers) (m : Option String) (r : ConnexionResponse),
        is_flask_response v = false →
        FlaskApi.get_response (.vtuple [v, .vint s, .vmap hs]) m = .ok r →
        r.status_code = some s ∧ r.headers = some hs) := by
  refine ⟨?_, ?_, ?_, ?_, ?_⟩
  · intro v m r hfw ht heq
    cases v with
    | vtuple items => simp [PyVal.isTuple] at ht
    | vresp fr => simp [is_flask_response] at hfw
    | vnone =>
      exact shape_ok_fields _ _ _ _ _ hfw
        (show FlaskApi.connexionResponseOfShape PyVal.vnone none none m = .ok r from heq)
    | vint n =>
      exact shape_ok_fields _ _ _ _ _ hfw
        (show FlaskApi.connexionResponseOfShape (PyVal.vint n) none none m = .ok r from heq)
    | vstr s =>
      exact shape_ok_fields _ _ _ _ _ hfw
        (show FlaskApi.connexionResponseOfShape (PyVal.vstr s) none none m = .ok r from heq)
    | vbytes bs =>
      exact shape_ok_fields _ _ _ _ _ hfw
        (show FlaskApi.connexionResponseOfShape (PyVal.vbytes bs) none none m = .ok r from heq)
    | vmap es =>
      exact shape_ok_fields _ _ _ _ _ hfw
        (show FlaskApi.connexionResponseOfShape (PyVal.vmap es) none none m = .ok r from heq)
    | vlist xs =>
      exact shape_ok_fields _ _ _ _ _ hfw
        (show FlaskApi.connexionResponseOfShape (PyVal.vlist xs) none none m = .ok r from heq)
  · intro v m r hfw heq
    exact shape_ok_fields _ _ _ _ _ hfw
      (show FlaskApi.connexionResponseOfShape v none none m = .ok r from heq)
  · intro v s m r hfw heq
    exact shape_ok_fields _ _ _ _ _ hfw
      (show FlaskApi.connexionResponseOfShape v (some s) none m = .ok r from heq)
  · intro v hs m r hfw heq
    exact shape_ok_fields _ _ _ _ _ hfw
      (show FlaskApi.connexionResponseOfShape v none (some hs) m = .ok r from heq)
  · intro v s hs m r hfw heq
    exact shape_ok_fields _ _ _ _ _ hfw
      (show FlaskApi.connexionResponseOfShape v (some s) (some hs) m = .ok r from heq)

/-- Witness for C3: the handler return `("x", 201)` yields status code 201 and
empty headers. -/
theorem get_response_tuple_shapes_w :
    (is_flask_response (PyVal.vstr "x") = false) ∧
    (ConnexionResponse.status_code
      { status_code := some 201, mimetype := none, content_type := none,
        headers := some [], body := PyVal.vstr "x", is_streamed := false } = some 201 ∧
     ConnexionResponse.headers
      { status_code := some 201, mimetype := none, content_type := none,
        headers := some [], body := PyVal.vstr "x", is_streamed := false } = some []) :=
  ⟨rfl,
   get_response_tuple_shapes.2.2.1 (PyVal.vstr "x") 201 none
     { status_code := some 201, mimetype := none, content_type := none,
       headers := some [], body := PyVal.vstr "x", is_streamed := false }
     rfl rfl⟩

/-- Claim C5: in every non-pass-through call of `_build_response`, each of the
constructor arguments mimetype, content_type, headers, response body and
status is passed exactly when its computed value is not null; null-valued
arguments are omitted so the framework's own defaults apply. -/
theorem build_response_omits_null_kwargs (m ct : Option String) (h : Option Headers)
    (sc : Option Int) (d b : PyVal) (st : Int) (ser : Option String)
    (hfw : FlaskApi._is_framework_response d = false)
    (hp : FlaskApi._prepare_body_and_status_code d m sc = .ok (b, st, ser)) :
    ∃ kws, FlaskApi._build_response m ct h sc d = .ok (.response_class kws) ∧
      kwHas "mimetype" kws = (pyOrStr m ser).isSome ∧
      kwHas "content_type" kws = ct.isSome ∧
      kwHas "headers" kws = h.isSome ∧
      kwHas "response" kws = (optOfPy b).isSome ∧
      kwHas "status" kws = true := by
  have hbuild : FlaskApi._build_response m ct h sc d =
      .ok (.response_class (filterNoneKwargs
        [("mimetype", (pyOrStr m ser).map KwVal.str),
         ("content_type", ct.map KwVal.str),
         ("headers", h.map KwVal.hdrs),
         ("response", (optOfPy b).map KwVal.pyv),
         ("status", some (KwVal.int st))])) := by
    unfold FlaskApi._build_response
    rw [hp]
    simp [hfw]
  refine ⟨_, hbuild, ?_, ?_, ?_, ?_, ?_⟩ <;>
    (rcases hpm : pyOrStr m ser with _ | pm <;>
     rcases ct with _ | cv <;>
     rcases h with _ | hv <;>
     rcases hob : optOfPy b with _ | ov <;>
     simp [filterNoneKwargs, kwHas, kwLookup, hpm, hob])

/-- Witness for C5: with no caller mimetype, no content type, no headers and
no status, only the response body and the defaulted status are passed. -/
theorem build_response_omits_null_kwargs_w :
    (FlaskApi._is_framework_response (PyVal.vstr "x") = false) ∧
    (FlaskApi._prepare_body_and_status_code (PyVal.vstr "x") none none =
      .ok (PyVal.vstr "x", 200, none)) ∧
    (∃ kws, FlaskApi._build_response none none none none (PyVal.vstr "x") =
        .ok (.response_class kws) ∧
      kwHas "mimetype" kws = (pyOrStr none none).isSome ∧
      kwHas "content_type" kws = (none : Option String).isSome ∧
      kwHas "headers" kws = (none : Option Headers).isSome ∧
      kwHas "response" kws = (optOfPy (PyVal.vstr "x")).isSome ∧
      kwHas "status" kws = true) :=
  ⟨rfl, rfl,
   build_response_omits_null_kwargs none none none none (PyVal.vstr "x")
     (PyVal.vstr "x") 200 none rfl rfl⟩

/-- Serializing a mapping body derives the mimetype `application/json`. -/
theorem serialize_vmap_mimetype (entries : List (String × PyVal)) (m : Option String)
    (body : PyVal) (ser : Option String)
    (hs : FlaskApi._serialize_data (.vmap entries) m = .ok (body, ser)) :
    ser = some "application/json" := by
  have h0 : FlaskApi._serialize_data (.vmap entries) m =
      (match jsonEncode (.vmap entries) with
       | some s => Except.ok (PyVal.vstr s, some "application/json")
       | none => Except.error ()) := rfl
  rw [h0] at hs
  cases hj : jsonEncode (.vmap entries) with
  | some s => rw [hj] at hs; simp at hs; exact hs.2.symm
  | none => rw [hj] at hs; simp at hs

/-- Claim C6: a serialization-derived mimetype (application/json for
structured values) is used only when the caller supplied no mimetype — a
caller-supplied mimetype always takes precedence in `_build_response` — and
in `_connexion_to_framework_response` the canonical response's own mimetype
takes precedence over the supplied default mimetype. -/
theorem mimetype_precedence :
    (∀ (m ct : Option String) (h : Option Headers) (sc : Option Int) (d : PyVal)
        (kws : List (String × KwVal)) (s : String),
        m = some s → s ≠ "" →
        FlaskApi._build_response m ct h sc d = .ok (.response_class kws) →
        kwLookup "mimetype" kws = some (.str s)) ∧
    (∀ (ct : Option String) (h : Option Headers) (sc : Option Int) (d b : PyVal)
        (st : Int) (ser : Option String) (kws : List (String × KwVal)),
        FlaskApi._prepare_body_and_status_code d none sc = .ok (b, st, ser) →
        FlaskApi._build_response none ct h sc d = .ok (.response_class kws) →
        kwLookup "mimetype" kws = ser.map KwVal.str) ∧
    (∀ (entries : List (String × PyVal)) (m : Option String) (sc : Option Int)
        (b : PyVal) (st : Int) (ser : Option String),
        FlaskApi._prepare_body_and_status_code (.vmap entries) m sc = .ok (b, st, ser) →
        ser = some "application/json") ∧
    (∀ (c : ConnexionResponse) (m m' : Option String) (s : String),
        c.mimetype = some s → s ≠ "" →
        FlaskApi._connexion_to_framework_response c m =
          FlaskApi._connexion_to_framework_response c m') := by
  refine ⟨?_, ?_, ?_, ?_⟩
  · intro m ct h sc d kws s hm hs hb
    subst hm
    obtain ⟨b, st, ser, hp, hkws⟩ := build_response_class_inv _ _ _ _ _ _ hb
    subst hkws
    simp [filterNoneKwargs, kwLookup, pyOrStr, hs]
  · intro ct h sc d b st ser kws hp hb
    obtain ⟨b', st', ser', hp', hkws⟩ := build_response_class_inv _ _ _ _ _ _ hb
    rw [hp] at hp'
    simp only [Except.ok.injEq, Prod.mk.injEq] at hp'
    obtain ⟨rfl, rfl, rfl⟩ := hp'
    subst hkws
    rcases hser : ser with _ | sv <;>
      rcases ct with _ | cv <;>
      rcases h with _ | hv <;>
      rcases hob : optOfPy b with _ | ov <;>
      simp [filterNoneKwargs, kwLookup, pyOrStr, hser, hob]
  · intro entries m sc b st ser hp
    unfold FlaskApi._prepare_body_and_status_code at hp
    cases hs : FlaskApi._serialize_data (.vmap entries) m with
    | error e => rw [hs] at hp; simp at hp
    | ok p =>
      obtain ⟨body, ser'⟩ := p
      rw [hs] at hp
      simp only [Except.ok.injEq, Prod.mk.injEq] at hp
      have hser := serialize_vmap_mimetype entries m body ser' hs
      rw [← hp.2.2]
      exact hser
  · intro c m m' s hc hs
    unfold FlaskApi._connexion_to_framework_response
    rw [hc]
    simp [pyOrStr, hs]

/-- Witness for C6: a caller-supplied mimetype `text/plain` is the mimetype
argument actually passed to the framework response constructor. -/
theorem mimetype_precedence_w :
    kwLookup "mimetype"
      [("mimetype", KwVal.str "text/plain"),
       ("response", KwVal.pyv (PyVal.vstr "x")),
       ("status", KwVal.int 200)] = some (KwVal.str "text/plain") :=
  mimetype_precedence.1 (some "text/plain") none none none (PyVal.vstr "x")
    [("mimetype", KwVal.str "text/plain"),
     ("response", KwVal.pyv (PyVal.vstr "x")),
     ("status", KwVal.int 200)]
    "text/plain" rfl (by decide) rfl
